import Mathlib

/-!
# pf_ip_door: allow-listed TCP relay with per-IP traffic counters

A shallow embedding of `src/door.go`.

* Go maps are finite partial functions; `map[string]uint64` is modelled as
  `String → Option Nat` (absent key = `none`), `map[string]struct{}` as an
  association list of keys.
* `uint64` values are naturals reduced modulo `2^64`; `int64` byte counts
  returned by `io.Copy` are integers.
* The network is an environment (`Env`) that fixes the outcome of every
  `net.Dial` and `io.Copy`; the effects of the program (dial, copy, close,
  print, lock, unlock, `go`) are appended to a trace held in the `World`.
* A `go` statement is recorded as an event; the body of the spawned goroutine
  is a separate function that a schedule runs later.
-/

namespace Door

/-! ## Data model -/

/-- The counter map `map[string]uint64` of a `TrafficCounter`. -/
abbrev Counters := String → Option Nat

/-- The value `make(map[string]uint64)`: no key is present. -/
def emptyCounters : Counters := fun _ => none

/-- A Go map read `m[key]`: the zero value when the key is absent. -/
def Counters.read (m : Counters) (key : String) : Nat := (m key).getD 0

/-- The Go statement `m[key] += b` on a `map[string]uint64`: the key is read
(zero when absent), the sum is taken in `uint64` and stored under the key. -/
def mapAddAssign (m : Counters) (key : String) (b : Nat) : Counters :=
  fun k => if k = key then some ((m.read key + b) % 2 ^ 64) else m k

/-- `TrafficCounter`: the embedded mutex has no data; `Counters` is the map. -/
structure TrafficCounter where
  Counters : Counters

/-- The two global ledgers a `*TrafficCounter` can point to. -/
inductive CounterPtr where
  | inTraffic
  | outTraffic
  deriving DecidableEq, Repr

/-- A TCP connection as the program observes it: an identity, the text
`RemoteAddr().String()` and the text `RemoteAddr().(*net.TCPAddr).IP.String()`. -/
structure Conn where
  id : Nat
  remoteAddrString : String
  remoteIP : String
  deriving DecidableEq, Repr

/-- The two results `(n, err)` of `io.Copy`; `n` is an `int64`. -/
structure CopyResult where
  n : Int
  err : Option String
  deriving DecidableEq, Repr

/-- A goroutine created by a `go` statement of the program. -/
inductive Goroutine where
  | handleConn (conn : Conn)
  | copyAndCount (dst src : Conn) (counter : CounterPtr)
  deriving DecidableEq, Repr

/-- Observable effects, in program order. -/
inductive Event where
  | println (args : List String)
  | close (c : Conn)
  | dial (network address : String)
  | copy (dst src : Conn) (r : CopyResult)
  | lock (counter : CounterPtr)
  | unlock (counter : CounterPtr)
  | go (g : Goroutine)
  deriving DecidableEq, Repr

/-- Process state: the two global ledgers and the trace of effects so far. -/
structure World where
  inTraffic : TrafficCounter
  outTraffic : TrafficCounter
  trace : List Event

/-- The state at process start: both ledgers empty, nothing done yet. -/
def World.init : World :=
  { inTraffic := ⟨emptyCounters⟩, outTraffic := ⟨emptyCounters⟩, trace := [] }

/-- Append one effect to the trace. -/
def World.emit (w : World) (e : Event) : World :=
  { w with trace := w.trace ++ [e] }

/-- Dereference a `*TrafficCounter`. -/
def World.counter (w : World) : CounterPtr → TrafficCounter
  | .inTraffic => w.inTraffic
  | .outTraffic => w.outTraffic

/-- Store through a `*TrafficCounter`. -/
def World.setCounter (w : World) (p : CounterPtr) (c : TrafficCounter) : World :=
  match p with
  | .inTraffic => { w with inTraffic := c }
  | .outTraffic => { w with outTraffic := c }

/-- The environment of the process: what each dial and each copy returns. -/
structure Env where
  dial : Conn → Except String Conn
  copy : Conn → Conn → CopyResult

/-- The allow-list `allowedIPs`, a `map[string]struct{}` with two keys. -/
def allowedIPs : List (String × Unit) := [("127.0.0.1", ()), ("127.0.0.2", ())]

/-- The conversion `uint64(n)` of an `int64`. -/
def uint64 (n : Int) : Nat := (n % 2 ^ 64).toNat

/-! ## `net.SplitHostPort` (Go standard library, `net/ipsock.go`) -/

/-- The error value `*net.AddrError`. -/
structure AddrError where
  Err : String
  Addr : String
  deriving DecidableEq, Repr

/-- The three results of `net.SplitHostPort`. -/
structure HostPort where
  host : String
  port : String
  err : Option AddrError
  deriving DecidableEq, Repr

/-- Index of the first occurrence of `c`, as `bytealg.IndexByteString`. -/
def indexByte : List Char → Char → Option Nat
  | [], _ => none
  | x :: xs, c => if x = c then some 0 else (indexByte xs c).map (· + 1)

/-- Index of the last occurrence of `c`, as `bytealg.LastIndexByteString`. -/
def lastIndexByte : List Char → Char → Option Nat
  | [], _ => none
  | x :: xs, c =>
    match lastIndexByte xs c with
    | some i => some (i + 1)
    | none => if x = c then some 0 else none

/-- The local closure `addrErr` of `SplitHostPort`: empty host, empty port and
an error. -/
def addrErr (addr why : String) : HostPort :=
  { host := "", port := "", err := some { Err := why, Addr := addr } }

/-- The tail of `SplitHostPort` after the host has been found: stray brackets
are rejected, then the port is what follows the last colon. -/
def splitTail (hostport : String) (host : List Char) (i j k : Nat) : HostPort :=
  let hp := hostport.toList
  if (indexByte (hp.drop j) '[').isSome then
    addrErr hostport "unexpected '[' in address"
  else if (indexByte (hp.drop k) ']').isSome then
    addrErr hostport "unexpected ']' in address"
  else
    { host := String.mk host, port := String.mk (hp.drop (i + 1)), err := none }

/-- The function `net.SplitHostPort`: splits `host:port`, `host%zone:port`,
`[host]:port` or `[host%zone]:port`. -/
def SplitHostPort (hostport : String) : HostPort :=
  let hp := hostport.toList
  match lastIndexByte hp ':' with
  | none => addrErr hostport "missing port in address"
  | some i =>
    if hp.head? = some '[' then
      match indexByte hp ']' with
      | none => addrErr hostport "missing ']' in address"
      | some e =>
        if e + 1 = hp.length then
          addrErr hostport "missing port in address"
        else if e + 1 = i then
          splitTail hostport ((hp.take e).drop 1) i 1 (e + 1)
        else if hp.get? (e + 1) = some ':' then
          addrErr hostport "too many colons in address"
        else
          addrErr hostport "missing port in address"
    else
      let host := hp.take i
      if (indexByte host ':').isSome then
        addrErr hostport "too many colons in address"
      else
        splitTail hostport host i 0 0

/-! ## The program -/

/-- The function `isIPAllowed`: whether `ip` is a key of `allowedIPs`. -/
def isIPAllowed (ip : String) : Bool :=
  match allowedIPs.lookup ip with
  | some _ => true
  | none => false

/-- The function `updateTrafficStats`: the key is the remote IP of `src`; under
the lock of `counter` the entry of that key is increased by `bytes`. -/
def updateTrafficStats (src : Conn) (bytes : Nat) (counter : CounterPtr) (w : World) : World :=
  let srcAddr := src.remoteIP
  let w := w.emit (.lock counter)
  let w := w.setCounter counter ⟨mapAddAssign (w.counter counter).Counters srcAddr bytes⟩
  w.emit (.unlock counter)

/-- The function `copyAndCount`: one `io.Copy(dst, src)`, a printed line when it
failed, and one ledger update when it moved at least one byte. -/
def copyAndCount (env : Env) (dst src : Conn) (counter : CounterPtr) (w : World) : World :=
  let r := env.copy dst src
  let w := w.emit (.copy dst src r)
  let w := match r.err with
    | some e => w.emit (.println ["Copy failed, err:", e])
    | none => w
  if r.n > 0 then updateTrafficStats src (uint64 r.n) counter w else w

/-- The function `handleConn`, up to its return: the dial, the `go` statement,
the synchronous copy, then the deferred closes in reverse order. -/
def handleConn (env : Env) (conn : Conn) (w : World) : World :=
  let w := w.emit (.dial "tcp" "127.0.0.1:80")
  match env.dial conn with
  | .error e =>
    let w := w.emit (.println ["Dial() failed, err: ", e])
    w.emit (.close conn)
  | .ok target =>
    let w := w.emit (.go (.copyAndCount target conn .inTraffic))
    let w := copyAndCount env conn target .outTraffic w
    let w := w.emit (.close target)
    w.emit (.close conn)

/-- One pass through the body of the accept loop of `main`, given what
`listener.Accept()` returned. -/
def acceptIter (accepted : Except String Conn) (w : World) : World :=
  match accepted with
  | .error e => w.emit (.println ["Accept() failed, err: ", e])
  | .ok conn =>
    let ip := (SplitHostPort conn.remoteAddrString).host
    if !isIPAllowed ip then
      let w := w.emit (.println ["IP: ", ip, " is not allowed"])
      w.emit (.close conn)
    else
      let w := w.emit (.println ["IP: ", ip, " is allowed"])
      w.emit (.go (.handleConn conn))

/-- The accept loop of `main` over the first results of `listener.Accept()`. -/
def acceptLoop (accepts : List (Except String Conn)) (w : World) : World :=
  accepts.foldl (fun w a => acceptIter a w) w

/-- The body of a goroutine. -/
def Goroutine.run (env : Env) : Goroutine → World → World
  | .handleConn conn, w => Door.handleConn env conn w
  | .copyAndCount dst src counter, w => Door.copyAndCount env dst src counter w

/-- The goroutines started by the `go` statements recorded in a trace. -/
def spawned : List Event → List Goroutine
  | [] => []
  | .go g :: es => g :: spawned es
  | _ :: es => spawned es

/-- A relay session from its first statement to the end of the copy it
spawned, under the schedule in which `handleConn` runs to its return and the
goroutine it started runs afterwards. The two copies write different ledgers,
so the ledgers at the end are the same under every other schedule. -/
def relaySession (env : Env) (conn : Conn) (w : World) : World :=
  let w1 := handleConn env conn w
  (spawned (w1.trace.drop w.trace.length)).foldl (fun w g => g.run env w) w1

/-- One accepted connection from `Accept` to the end of its session: the loop
body, then the goroutines it started, each run as a relay session. -/
def serveConn (env : Env) (accepted : Except String Conn) (w : World) : World :=
  let w1 := acceptIter accepted w
  (spawned (w1.trace.drop w.trace.length)).foldl
    (fun w g => match g with
      | .handleConn conn => relaySession env conn w
      | g => g.run env w) w1

/-- The effects a run has added to the trace since the earlier state `w`. -/
def World.since (w' w : World) : List Event := w'.trace.drop w.trace.length

/-- The line `copyAndCount` prints for a failed copy; nothing for `nil`. -/
def copyFailedLine : Option String → List Event
  | some e => [.println ["Copy failed, err:", e]]
  | none => []

/-- A sequence of calls of `updateTrafficStats` on one ledger, each a source
connection with a byte count, applied one after another as the lock orders
them. -/
def runUpdates (counter : CounterPtr) (ups : List (Conn × Nat)) (w : World) : World :=
  ups.foldl (fun w u => updateTrafficStats u.1 u.2 counter w) w

/-- The total of the byte counts that a list of updates carries for the IP `a`. -/
def bytesFor (a : String) (ups : List (Conn × Nat)) : Nat :=
  ((ups.filter (fun u => u.1.remoteIP = a)).map (·.2)).sum

/-- A ledger state the program can reach: the empty map of process start
followed by updates whose byte counts are positive `int64` values, which is
what `copyAndCount` passes to `updateTrafficStats`. -/
def Reachable (m : Counters) : Prop :=
  ∃ (counter : CounterPtr) (ups : List (Conn × Nat)),
    (∀ u ∈ ups, 0 < u.2 ∧ u.2 < 2 ^ 63) ∧
      m = ((runUpdates counter ups World.init).counter counter).Counters

/-- The effects of one `copyAndCount`, which do not depend on the state. -/
def copyEvents (env : Env) (dst src : Conn) (counter : CounterPtr) : List Event :=
  [Event.copy dst src (env.copy dst src)] ++ copyFailedLine (env.copy dst src).err ++
    (if (env.copy dst src).n > 0 then [Event.lock counter, Event.unlock counter] else [])

/-! ## Concrete scenarios -/

/-- A client that connects from the allow-listed address `127.0.0.2`. -/
def clientConn : Conn :=
  { id := 1, remoteAddrString := "127.0.0.2:51000", remoteIP := "127.0.0.2" }

/-- The connection that `net.Dial("tcp", "127.0.0.1:80")` opens: its remote end
is the backend. -/
def backendConn : Conn :=
  { id := 2, remoteAddrString := "127.0.0.1:80", remoteIP := "127.0.0.1" }

/-- A client that connects from an address outside the allow-list. -/
def strangerConn : Conn :=
  { id := 3, remoteAddrString := "10.0.0.2:40000", remoteIP := "10.0.0.2" }

/-- A connection whose remote-address text has no port to split off. -/
def oddConn : Conn :=
  { id := 4, remoteAddrString := "localhost", remoteIP := "" }

/-- The backend is up; the client sends 1000 bytes and the backend none. -/
def envUpload : Env :=
  { dial := fun _ => .ok backendConn
    copy := fun _ src => if src = clientConn then ⟨1000, none⟩ else ⟨0, none⟩ }

/-- The backend is up; the backend sends 500 bytes and the client none. -/
def envDownload : Env :=
  { dial := fun _ => .ok backendConn
    copy := fun _ src => if src = backendConn then ⟨500, none⟩ else ⟨0, none⟩ }

/-- The backend is down: every dial is refused. -/
def envRefused : Env :=
  { dial := fun _ => .error "connection refused"
    copy := fun _ _ => ⟨0, none⟩ }

/-- The backend is up; every copy breaks after seven bytes. -/
def envBroken : Env :=
  { dial := fun _ => .ok backendConn
    copy := fun _ _ => ⟨7, some "connection reset by peer"⟩ }

/-- Two uploads of `2^63 - 1` bytes each from the same client. -/
def hugeUploads : List (Conn × Nat) := [(clientConn, 2 ^ 63 - 1), (clientConn, 2 ^ 63 - 1)]

/-- Four uploads of `2^62` bytes each from the same client. -/
def fourUploads : List (Conn × Nat) :=
  [(clientConn, 2 ^ 62), (clientConn, 2 ^ 62), (clientConn, 2 ^ 62), (clientConn, 2 ^ 62)]

/-! ## Basic facts -/

@[simp] theorem emit_trace (w : World) (e : Event) : (w.emit e).trace = w.trace ++ [e] := rfl

@[simp] theorem emit_inTraffic (w : World) (e : Event) : (w.emit e).inTraffic = w.inTraffic := rfl

@[simp] theorem emit_outTraffic (w : World) (e : Event) :
    (w.emit e).outTraffic = w.outTraffic := rfl

@[simp] theorem emit_counter (w : World) (e : Event) (p : CounterPtr) :
    (w.emit e).counter p = w.counter p := by
  cases p <;> rfl

@[simp] theorem setCounter_trace (w : World) (p : CounterPtr) (c : TrafficCounter) :
    (w.setCounter p c).trace = w.trace := by
  cases p <;> rfl

@[simp] theorem setCounter_same (w : World) (p : CounterPtr) (c : TrafficCounter) :
    (w.setCounter p c).counter p = c := by
  cases p <;> rfl

theorem setCounter_other (w : World) (p q : CounterPtr) (c : TrafficCounter) (h : q ≠ p) :
    (w.setCounter p c).counter q = w.counter q := by
  cases p <;> cases q <;> first | rfl | exact absurd rfl h

theorem since_append (w' w : World) (l : List Event) (h : w'.trace = w.trace ++ l) :
    w'.since w = l := by
  simp [World.since, h]

theorem mapAddAssign_same (m : Counters) (key : String) (b : Nat) :
    mapAddAssign m key b key = some ((m.read key + b) % 2 ^ 64) := by
  simp [mapAddAssign]

theorem mapAddAssign_other (m : Counters) (key k : String) (b : Nat) (h : k ≠ key) :
    mapAddAssign m key b k = m k := by
  simp [mapAddAssign, h]

theorem mapAddAssign_read (m : Counters) (key a : String) (b : Nat) :
    (mapAddAssign m key b).read a
      = if a = key then (m.read key + b) % 2 ^ 64 else m.read a := by
  by_cases h : a = key <;> simp [mapAddAssign, Counters.read, h]

theorem uint64_of_int64_pos (n : Int) (h0 : 0 < n) (h1 : n < 2 ^ 63) : uint64 n = n.toNat := by
  unfold uint64
  rw [Int.emod_eq_of_lt (le_of_lt h0) (by omega)]

/-! ### `updateTrafficStats` -/

theorem updateTrafficStats_trace (src : Conn) (b : Nat) (p : CounterPtr) (w : World) :
    (updateTrafficStats src b p w).trace = w.trace ++ [.lock p, .unlock p] := by
  simp [updateTrafficStats]

theorem updateTrafficStats_same (src : Conn) (b : Nat) (p : CounterPtr) (w : World) :
    ((updateTrafficStats src b p w).counter p).Counters
      = mapAddAssign (w.counter p).Counters src.remoteIP b := by
  simp [updateTrafficStats]

theorem updateTrafficStats_other (src : Conn) (b : Nat) (p q : CounterPtr) (w : World)
    (h : q ≠ p) : (updateTrafficStats src b p w).counter q = w.counter q := by
  simp [updateTrafficStats, setCounter_other _ _ _ _ h]

/-! ### `copyAndCount` -/

theorem copyAndCount_trace (env : Env) (dst src : Conn) (p : CounterPtr) (w : World) :
    (copyAndCount env dst src p w).trace = w.trace ++ copyEvents env dst src p := by
  unfold copyAndCount copyEvents
  generalize env.copy dst src = r
  rcases r with ⟨n, _ | e⟩ <;> by_cases hn : n > 0 <;>
    simp [hn, copyFailedLine, updateTrafficStats_trace]

theorem copyAndCount_same (env : Env) (dst src : Conn) (p : CounterPtr) (w : World) :
    ((copyAndCount env dst src p w).counter p).Counters
      = if (env.copy dst src).n > 0
        then mapAddAssign (w.counter p).Counters src.remoteIP (uint64 (env.copy dst src).n)
        else (w.counter p).Counters := by
  unfold copyAndCount
  generalize env.copy dst src = r
  rcases r with ⟨n, _ | e⟩ <;> by_cases hn : n > 0 <;>
    simp [hn, updateTrafficStats_same]

theorem copyAndCount_other (env : Env) (dst src : Conn) (p q : CounterPtr) (w : World)
    (h : q ≠ p) : (copyAndCount env dst src p w).counter q = w.counter q := by
  unfold copyAndCount
  generalize env.copy dst src = r
  rcases r with ⟨n, _ | e⟩ <;> by_cases hn : n > 0 <;>
    simp [hn, updateTrafficStats_other _ _ _ _ _ h]

theorem spawned_append (l₁ l₂ : List Event) : spawned (l₁ ++ l₂) = spawned l₁ ++ spawned l₂ := by
  induction l₁ with
  | nil => rfl
  | cons e es ih => cases e <;> simp [spawned, ih]

theorem spawned_copyEvents (env : Env) (dst src : Conn) (p : CounterPtr) :
    spawned (copyEvents env dst src p) = [] := by
  unfold copyEvents
  generalize env.copy dst src = r
  rcases r with ⟨n, _ | e⟩ <;> by_cases hn : n > 0 <;>
    simp [hn, copyFailedLine, spawned]

/-! ### `handleConn` and the session -/

theorem handleConn_dial_error (env : Env) (conn : Conn) (w : World) (e : String)
    (h : env.dial conn = .error e) :
    handleConn env conn w
      = ((w.emit (.dial "tcp" "127.0.0.1:80")).emit
          (.println ["Dial() failed, err: ", e])).emit (.close conn) := by
  simp [handleConn, h]

theorem handleConn_dial_ok (env : Env) (conn target : Conn) (w : World)
    (h : env.dial conn = .ok target) :
    handleConn env conn w
      = ((copyAndCount env conn target .outTraffic
          ((w.emit (.dial "tcp" "127.0.0.1:80")).emit
            (.go (.copyAndCount target conn .inTraffic)))).emit (.close target)).emit
          (.close conn) := by
  simp [handleConn, h]

theorem handleConn_trace_ok (env : Env) (conn target : Conn) (w : World)
    (h : env.dial conn = .ok target) :
    (handleConn env conn w).trace
      = w.trace ++ ([Event.dial "tcp" "127.0.0.1:80",
          Event.go (.copyAndCount target conn .inTraffic)]
          ++ copyEvents env conn target .outTraffic
          ++ [Event.close target, Event.close conn]) := by
  simp [handleConn_dial_ok env conn target w h, copyAndCount_trace]

theorem handleConn_inTraffic (env : Env) (conn : Conn) (w : World) :
    (handleConn env conn w).inTraffic = w.inTraffic := by
  cases h : env.dial conn with
  | error e => simp [handleConn_dial_error env conn w e h]
  | ok target =>
    have := copyAndCount_other env conn target .outTraffic .inTraffic
      ((w.emit (.dial "tcp" "127.0.0.1:80")).emit (.go (.copyAndCount target conn .inTraffic)))
      (by decide)
    simpa [handleConn_dial_ok env conn target w h, World.counter] using this

theorem relaySession_dial_error (env : Env) (conn : Conn) (w : World) (e : String)
    (h : env.dial conn = .error e) : relaySession env conn w = handleConn env conn w := by
  have ht : (handleConn env conn w).trace
      = w.trace ++ [Event.dial "tcp" "127.0.0.1:80",
          Event.println ["Dial() failed, err: ", e], Event.close conn] := by
    simp [handleConn_dial_error env conn w e h]
  simp [relaySession, ht, spawned]

theorem relaySession_dial_ok (env : Env) (conn target : Conn) (w : World)
    (h : env.dial conn = .ok target) :
    relaySession env conn w
      = copyAndCount env target conn .inTraffic (handleConn env conn w) := by
  have hs : spawned ((handleConn env conn w).trace.drop w.trace.length)
      = [.copyAndCount target conn .inTraffic] := by
    rw [handleConn_trace_ok env conn target w h, List.drop_left, spawned_append,
      spawned_append, spawned_copyEvents]
    rfl
  simp only [relaySession, hs, List.foldl_cons, List.foldl_nil, Goroutine.run]

theorem relaySession_trace (env : Env) (conn : Conn) (w : World) :
    ∃ l, (relaySession env conn w).trace = w.trace ++ Event.dial "tcp" "127.0.0.1:80" :: l := by
  cases h : env.dial conn with
  | error e =>
    rw [relaySession_dial_error env conn w e h, handleConn_dial_error env conn w e h]
    exact ⟨[Event.println ["Dial() failed, err: ", e], Event.close conn], by simp⟩
  | ok target =>
    rw [relaySession_dial_ok env conn target w h, copyAndCount_trace,
      handleConn_trace_ok env conn target w h]
    exact ⟨_, by simp only [List.append_assoc, List.cons_append, List.nil_append]; rfl⟩

/-! ### The accept loop -/

theorem isIPAllowed_iff_key (ip : String) :
    isIPAllowed ip = true ↔ ip ∈ allowedIPs.map Prod.fst := by
  by_cases h1 : ip = "127.0.0.1"
  · subst h1; decide
  · by_cases h2 : ip = "127.0.0.2"
    · subst h2; decide
    · have e1 : (ip == "127.0.0.1") = false := by simpa using h1
      have e2 : (ip == "127.0.0.2") = false := by simpa using h2
      simp [isIPAllowed, allowedIPs, List.lookup, e1, e2, h1, h2]

theorem acceptIter_denied (conn : Conn) (w : World)
    (h : isIPAllowed (SplitHostPort conn.remoteAddrString).host = false) :
    acceptIter (.ok conn) w
      = (w.emit (.println ["IP: ", (SplitHostPort conn.remoteAddrString).host,
          " is not allowed"])).emit (.close conn) := by
  simp [acceptIter, h]

theorem acceptIter_allowed (conn : Conn) (w : World)
    (h : isIPAllowed (SplitHostPort conn.remoteAddrString).host = true) :
    acceptIter (.ok conn) w
      = (w.emit (.println ["IP: ", (SplitHostPort conn.remoteAddrString).host,
          " is allowed"])).emit (.go (.handleConn conn)) := by
  simp [acceptIter, h]

theorem serveConn_denied (env : Env) (conn : Conn) (w : World)
    (h : isIPAllowed (SplitHostPort conn.remoteAddrString).host = false) :
    serveConn env (.ok conn) w = acceptIter (.ok conn) w := by
  have ht : (acceptIter (.ok conn) w).trace.drop w.trace.length
      = [Event.println ["IP: ", (SplitHostPort conn.remoteAddrString).host,
          " is not allowed"], Event.close conn] := by
    simp [acceptIter_denied conn w h]
  simp only [serveConn, ht, spawned, List.foldl_nil]

theorem serveConn_allowed (env : Env) (conn : Conn) (w : World)
    (h : isIPAllowed (SplitHostPort conn.remoteAddrString).host = true) :
    serveConn env (.ok conn) w = relaySession env conn (acceptIter (.ok conn) w) := by
  have ht : (acceptIter (.ok conn) w).trace.drop w.trace.length
      = [Event.println ["IP: ", (SplitHostPort conn.remoteAddrString).host,
          " is allowed"], Event.go (.handleConn conn)] := by
    simp [acceptIter_allowed conn w h]
  simp only [serveConn, ht, spawned, List.foldl_cons, List.foldl_nil]

theorem splitTail_err_host (hostport : String) (host : List Char) (i j k : Nat) :
    (splitTail hostport host i j k).err ≠ none →
      (splitTail hostport host i j k).host = "" := by
  unfold splitTail
  dsimp only
  repeat' split
  all_goals first | (intro _; rfl) | (intro h; exact absurd rfl h)

theorem SplitHostPort_err_host (hostport : String) :
    (SplitHostPort hostport).err ≠ none → (SplitHostPort hostport).host = "" := by
  unfold SplitHostPort
  dsimp only
  repeat' split
  all_goals first | (intro _; rfl) | exact splitTail_err_host _ _ _ _ _

/-! ### Sequences of ledger updates -/

theorem mapAddAssign_comm (m : Counters) (k₁ k₂ : String) (b₁ b₂ : Nat) :
    mapAddAssign (mapAddAssign m k₁ b₁) k₂ b₂ = mapAddAssign (mapAddAssign m k₂ b₂) k₁ b₁ := by
  funext k
  by_cases h12 : k₁ = k₂
  · subst h12
    by_cases hk : k = k₁
    · subst hk
      simp only [mapAddAssign, Counters.read, if_true, Option.getD_some]
      congr 1
      omega
    · simp [mapAddAssign, hk]
  · have h21 : ¬ k₂ = k₁ := fun h => h12 h.symm
    by_cases hk1 : k = k₁
    · subst hk1
      simp [mapAddAssign, Counters.read, h12, h21]
    · by_cases hk2 : k = k₂
      · subst hk2
        simp [mapAddAssign, Counters.read, h12, h21]
      · simp [mapAddAssign, hk1, hk2]

theorem updateTrafficStats_comm (p : CounterPtr) (s₁ s₂ : Conn) (b₁ b₂ : Nat) (w : World) :
    updateTrafficStats s₂ b₂ p (updateTrafficStats s₁ b₁ p w)
      = updateTrafficStats s₁ b₁ p (updateTrafficStats s₂ b₂ p w) := by
  cases p <;>
    simp [updateTrafficStats, World.emit, World.setCounter, World.counter,
      mapAddAssign_comm w.inTraffic.Counters s₁.remoteIP s₂.remoteIP b₁ b₂,
      mapAddAssign_comm w.outTraffic.Counters s₁.remoteIP s₂.remoteIP b₁ b₂]

theorem runUpdates_cons (p : CounterPtr) (u : Conn × Nat) (us : List (Conn × Nat)) (w : World) :
    runUpdates p (u :: us) w = runUpdates p us (updateTrafficStats u.1 u.2 p w) := rfl

theorem runUpdates_other (p q : CounterPtr) (h : q ≠ p) (ups : List (Conn × Nat)) (w : World) :
    (runUpdates p ups w).counter q = w.counter q := by
  induction ups generalizing w with
  | nil => rfl
  | cons u us ih => rw [runUpdates_cons, ih, updateTrafficStats_other _ _ _ _ _ h]

theorem bytesFor_cons (a : String) (u : Conn × Nat) (us : List (Conn × Nat)) :
    bytesFor a (u :: us) = (if u.1.remoteIP = a then u.2 else 0) + bytesFor a us := by
  by_cases h : u.1.remoteIP = a <;> simp [bytesFor, List.filter_cons, h]

theorem runUpdates_read (p : CounterPtr) (a : String) (ups : List (Conn × Nat)) (w : World)
    (h : (w.counter p).Counters.read a < 2 ^ 64) :
    ((runUpdates p ups w).counter p).Counters.read a
      = ((w.counter p).Counters.read a + bytesFor a ups) % 2 ^ 64 := by
  induction ups generalizing w with
  | nil =>
    have hb : bytesFor a [] = 0 := rfl
    rw [hb, Nat.add_zero, Nat.mod_eq_of_lt h]
    rfl
  | cons u us ih =>
    rw [runUpdates_cons, bytesFor_cons]
    have hstep := mapAddAssign_read (w.counter p).Counters u.1.remoteIP a u.2
    rw [← updateTrafficStats_same u.1 u.2 p w] at hstep
    by_cases hk : a = u.1.remoteIP
    · rw [if_pos hk] at hstep
      rw [ih _ (by rw [hstep]; exact Nat.mod_lt _ (by norm_num)), hstep, if_pos hk.symm, ← hk]
      omega
    · rw [if_neg hk] at hstep
      rw [ih _ (by rw [hstep]; exact h), hstep, if_neg (fun e => hk e.symm)]
      simp

theorem TrafficCounter.eq_of_Counters {a b : TrafficCounter} (h : a.Counters = b.Counters) :
    a = b := by
  cases a; cases b; simp_all

theorem serveConn_denied_since (env : Env) (conn : Conn) (w : World)
    (h : isIPAllowed (SplitHostPort conn.remoteAddrString).host = false) :
    (serveConn env (.ok conn) w).since w
      = [Event.println ["IP: ", (SplitHostPort conn.remoteAddrString).host, " is not allowed"],
          Event.close conn] := by
  rw [serveConn_denied env conn w h, acceptIter_denied conn w h]
  exact since_append _ _ _ (by simp)

/-- The two copies of a session write different ledgers, so the ledgers do not
depend on which of the two finishes first. -/
theorem copies_commute (env : Env) (d₁ s₁ d₂ s₂ : Conn) (w : World) (q : CounterPtr) :
    (copyAndCount env d₁ s₁ .inTraffic (copyAndCount env d₂ s₂ .outTraffic w)).counter q
      = (copyAndCount env d₂ s₂ .outTraffic (copyAndCount env d₁ s₁ .inTraffic w)).counter q := by
  cases q
  · apply TrafficCounter.eq_of_Counters
    rw [copyAndCount_same env d₁ s₁ .inTraffic (copyAndCount env d₂ s₂ .outTraffic w),
      copyAndCount_other env d₂ s₂ .outTraffic .inTraffic w (by decide),
      copyAndCount_other env d₂ s₂ .outTraffic .inTraffic _ (by decide),
      copyAndCount_same env d₁ s₁ .inTraffic w]
  · apply TrafficCounter.eq_of_Counters
    rw [copyAndCount_other env d₁ s₁ .inTraffic .outTraffic _ (by decide),
      copyAndCount_same env d₂ s₂ .outTraffic w,
      copyAndCount_same env d₂ s₂ .outTraffic (copyAndCount env d₁ s₁ .inTraffic w),
      copyAndCount_other env d₁ s₁ .inTraffic .outTraffic w (by decide)]

/-! ## The claims -/

/-- C1: for an accepted connection whose extracted source IP is `ip`, the accept
loop starts `handleConn` (and with it the backend dial) exactly when `ip` is a
key of `allowedIPs`, which is exactly when `isIPAllowed ip` is true; for an `ip`
that is not a key the loop only prints and closes the client connection, no dial
occurs and both ledgers stay as they were. -/
theorem admission_gate (env : Env) (conn : Conn) (w : World) :
    (∀ ip, isIPAllowed ip = true ↔ ip ∈ allowedIPs.map Prod.fst) ∧
    (Event.go (.handleConn conn) ∈ (acceptIter (.ok conn) w).since w
      ↔ (SplitHostPort conn.remoteAddrString).host ∈ allowedIPs.map Prod.fst) ∧
    (Event.dial "tcp" "127.0.0.1:80" ∈ (serveConn env (.ok conn) w).since w
      ↔ (SplitHostPort conn.remoteAddrString).host ∈ allowedIPs.map Prod.fst) ∧
    ((SplitHostPort conn.remoteAddrString).host ∉ allowedIPs.map Prod.fst →
      (serveConn env (.ok conn) w).since w
        = [Event.println ["IP: ", (SplitHostPort conn.remoteAddrString).host,
            " is not allowed"], Event.close conn] ∧
      (serveConn env (.ok conn) w).inTraffic = w.inTraffic ∧
      (serveConn env (.ok conn) w).outTraffic = w.outTraffic) := by
  refine ⟨isIPAllowed_iff_key, ?_, ?_, ?_⟩
  · rw [← isIPAllowed_iff_key]
    cases h : isIPAllowed (SplitHostPort conn.remoteAddrString).host with
    | false =>
      have hs := serveConn_denied_since env conn w h
      rw [serveConn_denied env conn w h] at hs
      rw [hs]
      simp
    | true =>
      have hs : (acceptIter (.ok conn) w).since w
          = [Event.println ["IP: ", (SplitHostPort conn.remoteAddrString).host, " is allowed"],
              Event.go (.handleConn conn)] := by
        rw [acceptIter_allowed conn w h]
        exact since_append _ _ _ (by simp)
      rw [hs]
      simp
  · rw [← isIPAllowed_iff_key]
    cases h : isIPAllowed (SplitHostPort conn.remoteAddrString).host with
    | false =>
      rw [serveConn_denied_since env conn w h]
      simp
    | true =>
      rw [serveConn_allowed env conn w h]
      obtain ⟨l, hl⟩ := relaySession_trace env conn (acceptIter (.ok conn) w)
      rw [acceptIter_allowed conn w h] at hl ⊢
      have hs := since_append _ w
        ([Event.println ["IP: ", (SplitHostPort conn.remoteAddrString).host, " is allowed"],
          Event.go (.handleConn conn)] ++ Event.dial "tcp" "127.0.0.1:80" :: l)
        (by rw [hl]; simp)
      rw [hs]
      simp
  · intro hnot
    rw [← isIPAllowed_iff_key] at hnot
    have h : isIPAllowed (SplitHostPort conn.remoteAddrString).host = false := by
      simpa using hnot
    refine ⟨serveConn_denied_since env conn w h, ?_, ?_⟩ <;>
      rw [serveConn_denied env conn w h, acceptIter_denied conn w h] <;> rfl

/-- C1, at a connection from `10.0.0.2`, which is not on the allow-list. -/
theorem admission_gate_witness :
    (SplitHostPort strangerConn.remoteAddrString).host ∉ allowedIPs.map Prod.fst ∧
    ((serveConn envUpload (.ok strangerConn) World.init).since World.init
        = [Event.println ["IP: ", (SplitHostPort strangerConn.remoteAddrString).host,
            " is not allowed"], Event.close strangerConn] ∧
      (serveConn envUpload (.ok strangerConn) World.init).inTraffic = World.init.inTraffic ∧
      (serveConn envUpload (.ok strangerConn) World.init).outTraffic
        = World.init.outTraffic) :=
  ⟨by decide, (admission_gate envUpload strangerConn World.init).2.2.2 (by decide)⟩

/-- C4: `updateTrafficStats` on a source whose remote IP is `ip` sets the entry of
`ip` in the ledger it was given to (old value, or 0 when absent) + `b` modulo
`2^64`, leaves the entry of every other IP (present or absent) as it was, and
does not touch the other ledger. -/
theorem updateTrafficStats_post (w : World) (src : Conn) (b : Nat) (counter : CounterPtr) :
    ((updateTrafficStats src b counter w).counter counter).Counters src.remoteIP
      = some ((((w.counter counter).Counters src.remoteIP).getD 0 + b) % 2 ^ 64) ∧
    (∀ ip', ip' ≠ src.remoteIP →
      ((updateTrafficStats src b counter w).counter counter).Counters ip'
        = (w.counter counter).Counters ip') ∧
    (∀ other, other ≠ counter →
      (updateTrafficStats src b counter w).counter other = w.counter other) := by
  refine ⟨?_, ?_, ?_⟩
  · rw [updateTrafficStats_same, mapAddAssign_same]
    rfl
  · intro ip' h
    rw [updateTrafficStats_same, mapAddAssign_other _ _ _ _ h]
  · intro other h
    exact updateTrafficStats_other src b counter other w h

/-- C4, at an update of `outTraffic` for the client `127.0.0.2`: the entry of
`127.0.0.1` and the ledger `inTraffic` keep their values. -/
theorem updateTrafficStats_post_witness :
    ((updateTrafficStats clientConn 10 .outTraffic World.init).counter .outTraffic).Counters
        "127.0.0.1" = (World.init.counter .outTraffic).Counters "127.0.0.1" ∧
    (updateTrafficStats clientConn 10 .outTraffic World.init).counter .inTraffic
      = World.init.counter .inTraffic :=
  ⟨(updateTrafficStats_post World.init clientConn 10 .outTraffic).2.1 "127.0.0.1" (by decide),
    (updateTrafficStats_post World.init clientConn 10 .outTraffic).2.2 .inTraffic (by decide)⟩

/-- C7: when the dial to the backend fails, `handleConn` makes exactly one dial
attempt, prints the failure, closes the client connection and returns; it starts
no copy (no goroutine, no `io.Copy`) and leaves both ledgers unchanged. -/
theorem dial_failure_aborts (env : Env) (conn : Conn) (w : World) (e : String)
    (h : env.dial conn = .error e) :
    (handleConn env conn w).since w
      = [Event.dial "tcp" "127.0.0.1:80", Event.println ["Dial() failed, err: ", e],
          Event.close conn] ∧
    spawned ((handleConn env conn w).since w) = [] ∧
    relaySession env conn w = handleConn env conn w ∧
    (handleConn env conn w).inTraffic = w.inTraffic ∧
    (handleConn env conn w).outTraffic = w.outTraffic := by
  have hs : (handleConn env conn w).since w
      = [Event.dial "tcp" "127.0.0.1:80", Event.println ["Dial() failed, err: ", e],
          Event.close conn] := by
    rw [handleConn_dial_error env conn w e h]
    exact since_append _ _ _ (by simp)
  refine ⟨hs, by rw [hs]; rfl, relaySession_dial_error env conn w e h, ?_, ?_⟩ <;>
    rw [handleConn_dial_error env conn w e h] <;> rfl

/-- C7, at an admitted client while the backend refuses connections. -/
theorem dial_failure_aborts_witness :
    envRefused.dial clientConn = .error "connection refused" ∧
    (handleConn envRefused clientConn World.init).since World.init
      = [Event.dial "tcp" "127.0.0.1:80",
          Event.println ["Dial() failed, err: ", "connection refused"],
          Event.close clientConn] :=
  ⟨rfl, (dial_failure_aborts envRefused clientConn World.init "connection refused" rfl).1⟩

/-- C8: when `net.SplitHostPort` returns an error for the remote-address text, the
extracted host is the empty string, `isIPAllowed` of it is false, and the loop
body prints, closes the connection and starts no `handleConn`; the ledgers are
unchanged and the loop goes on with the next accept. -/
theorem extraction_failure_is_denial (env : Env) (conn : Conn) (w : World)
    (rest : List (Except String Conn))
    (h : (SplitHostPort conn.remoteAddrString).err ≠ none) :
    (SplitHostPort conn.remoteAddrString).host = "" ∧
    isIPAllowed (SplitHostPort conn.remoteAddrString).host = false ∧
    (acceptIter (.ok conn) w).since w
      = [Event.println ["IP: ", "", " is not allowed"], Event.close conn] ∧
    serveConn env (.ok conn) w = acceptIter (.ok conn) w ∧
    (acceptIter (.ok conn) w).inTraffic = w.inTraffic ∧
    (acceptIter (.ok conn) w).outTraffic = w.outTraffic ∧
    acceptLoop (.ok conn :: rest) w = acceptLoop rest (acceptIter (.ok conn) w) := by
  have hhost := SplitHostPort_err_host conn.remoteAddrString h
  have hden : isIPAllowed (SplitHostPort conn.remoteAddrString).host = false := by
    rw [hhost]; decide
  refine ⟨hhost, hden, ?_, serveConn_denied env conn w hden, ?_, ?_, rfl⟩
  · rw [acceptIter_denied conn w hden, hhost]
    exact since_append _ _ _ (by simp)
  · rw [acceptIter_denied conn w hden]; rfl
  · rw [acceptIter_denied conn w hden]; rfl

/-- C8, at a connection whose remote-address text is `localhost` (no port). -/
theorem extraction_failure_is_denial_witness :
    (SplitHostPort oddConn.remoteAddrString).err ≠ none ∧
    isIPAllowed (SplitHostPort oddConn.remoteAddrString).host = false ∧
    (acceptIter (.ok oddConn) World.init).since World.init
      = [Event.println ["IP: ", "", " is not allowed"], Event.close oddConn] :=
  ⟨by decide,
    (extraction_failure_is_denial envUpload oddConn World.init [] (by decide)).2.1,
    (extraction_failure_is_denial envUpload oddConn World.init [] (by decide)).2.2.1⟩

/-- C9: every run of `handleConn` ends by closing the client connection; when the
dial succeeded the last two effects are the close of the backend connection and
then the close of the client connection, whatever the two copies returned. -/
theorem endpoints_released (env : Env) (conn : Conn) (w : World) :
    (∃ pre, (handleConn env conn w).since w = pre ++ [Event.close conn]) ∧
    (∀ target, env.dial conn = .ok target →
      (handleConn env conn w).since w
        = [Event.dial "tcp" "127.0.0.1:80", Event.go (.copyAndCount target conn .inTraffic)]
          ++ copyEvents env conn target .outTraffic
          ++ [Event.close target, Event.close conn]) := by
  have hok : ∀ target, env.dial conn = .ok target →
      (handleConn env conn w).since w
        = [Event.dial "tcp" "127.0.0.1:80", Event.go (.copyAndCount target conn .inTraffic)]
          ++ copyEvents env conn target .outTraffic
          ++ [Event.close target, Event.close conn] := fun target h =>
    since_append _ _ _ (handleConn_trace_ok env conn target w h)
  refine ⟨?_, hok⟩
  cases h : env.dial conn with
  | error e =>
    refine ⟨[Event.dial "tcp" "127.0.0.1:80", Event.println ["Dial() failed, err: ", e]], ?_⟩
    rw [handleConn_dial_error env conn w e h]
    exact since_append _ _ _ (by simp)
  | ok target =>
    refine ⟨[Event.dial "tcp" "127.0.0.1:80", Event.go (.copyAndCount target conn .inTraffic)]
      ++ copyEvents env conn target .outTraffic ++ [Event.close target], ?_⟩
    rw [hok target h]
    simp

/-- C9, at a session whose copies both break: the backend connection and the
client connection are closed at the end all the same. -/
theorem endpoints_released_witness :
    (handleConn envBroken clientConn World.init).since World.init
      = [Event.dial "tcp" "127.0.0.1:80",
          Event.go (.copyAndCount backendConn clientConn .inTraffic)]
        ++ copyEvents envBroken clientConn backendConn .outTraffic
        ++ [Event.close backendConn, Event.close clientConn] :=
  (endpoints_released envBroken clientConn World.init).2 backendConn rfl

/-- C10: `copyAndCount` reports once. When the copy returned `(n, err)` with
`n > 0`, the ledger it was given receives one locked increment of `n` under the
remote IP of the source, with `err` nil or not: that entry becomes (old value,
or 0 when absent) + `n` modulo `2^64`, every other entry keeps its value, and
the trace holds one lock and one unlock. When `n = 0` that ledger is unchanged
(no entry is created). The other ledger is never touched, and the ledgers after
the call do not depend on `err`, which is only printed. -/
theorem copyAndCount_reports_once (env : Env) (dst src : Conn) (counter : CounterPtr)
    (w : World) (n : Int) (err : Option String) (hcopy : env.copy dst src = ⟨n, err⟩) :
    (0 < n → n < 2 ^ 63 →
      ((copyAndCount env dst src counter w).counter counter).Counters src.remoteIP
          = some ((((w.counter counter).Counters src.remoteIP).getD 0 + n.toNat) % 2 ^ 64) ∧
      (∀ ip', ip' ≠ src.remoteIP →
        ((copyAndCount env dst src counter w).counter counter).Counters ip'
          = (w.counter counter).Counters ip') ∧
      (copyAndCount env dst src counter w).since w
          = [Event.copy dst src ⟨n, err⟩] ++ copyFailedLine err
            ++ [Event.lock counter, Event.unlock counter]) ∧
    (n = 0 →
      (copyAndCount env dst src counter w).counter counter = w.counter counter ∧
      (copyAndCount env dst src counter w).since w
          = [Event.copy dst src ⟨n, err⟩] ++ copyFailedLine err) ∧
    (∀ other, other ≠ counter →
      (copyAndCount env dst src counter w).counter other = w.counter other) ∧
    (∀ (env' : Env) (err' : Option String), env'.copy dst src = ⟨n, err'⟩ →
      (copyAndCount env' dst src counter w).inTraffic
          = (copyAndCount env dst src counter w).inTraffic ∧
      (copyAndCount env' dst src counter w).outTraffic
          = (copyAndCount env dst src counter w).outTraffic) := by
  have hsince : (copyAndCount env dst src counter w).since w
      = copyEvents env dst src counter :=
    since_append _ _ _ (copyAndCount_trace env dst src counter w)
  refine ⟨?_, ?_, ?_, ?_⟩
  · intro hpos hfit
    have hmap : ((copyAndCount env dst src counter w).counter counter).Counters
        = mapAddAssign (w.counter counter).Counters src.remoteIP n.toNat := by
      rw [copyAndCount_same, hcopy, if_pos hpos, uint64_of_int64_pos n hpos hfit]
    refine ⟨?_, ?_, ?_⟩
    · rw [hmap, mapAddAssign_same]
      rfl
    · intro ip' h
      rw [hmap, mapAddAssign_other _ _ _ _ h]
    · rw [hsince]
      simp [copyEvents, hcopy, hpos]
  · intro hzero
    refine ⟨?_, ?_⟩
    · apply TrafficCounter.eq_of_Counters
      rw [copyAndCount_same, hcopy]
      simp [hzero]
    · rw [hsince]
      simp [copyEvents, hcopy, hzero]
  · intro other h
    exact copyAndCount_other env dst src counter other w h
  · intro env' err' hcopy'
    have hall : ∀ q, (copyAndCount env' dst src counter w).counter q
        = (copyAndCount env dst src counter w).counter q := by
      intro q
      by_cases hq : q = counter
      · subst hq
        apply TrafficCounter.eq_of_Counters
        rw [copyAndCount_same, copyAndCount_same, hcopy, hcopy']
      · rw [copyAndCount_other _ _ _ _ _ _ hq, copyAndCount_other _ _ _ _ _ _ hq]
    exact ⟨hall .inTraffic, hall .outTraffic⟩

/-- C10, at a copy from the client `127.0.0.2` that breaks after seven bytes:
the failure is printed, then the seven bytes are credited once, so the entry of
`127.0.0.2` in `inTraffic` goes from absent to 7 and the entry of `127.0.0.1`
stays absent. -/
theorem copyAndCount_reports_once_witness :
    envBroken.copy backendConn clientConn = ⟨7, some "connection reset by peer"⟩ ∧
    ((copyAndCount envBroken backendConn clientConn .inTraffic World.init).counter
        .inTraffic).Counters "127.0.0.2" = some 7 ∧
    ((copyAndCount envBroken backendConn clientConn .inTraffic World.init).counter
        .inTraffic).Counters "127.0.0.1" = none ∧
    (copyAndCount envBroken backendConn clientConn .inTraffic World.init).since World.init
      = [Event.copy backendConn clientConn ⟨7, some "connection reset by peer"⟩,
          Event.println ["Copy failed, err:", "connection reset by peer"],
          Event.lock .inTraffic, Event.unlock .inTraffic] :=
  ⟨rfl,
    ((copyAndCount_reports_once envBroken backendConn clientConn .inTraffic World.init 7
      (some "connection reset by peer") rfl).1 (by decide) (by decide)).1.trans (by decide),
    (((copyAndCount_reports_once envBroken backendConn clientConn .inTraffic World.init 7
      (some "connection reset by peer") rfl).1 (by decide) (by decide)).2.1 "127.0.0.1"
      (by decide)).trans (by decide),
    ((copyAndCount_reports_once envBroken backendConn clientConn .inTraffic World.init 7
      (some "connection reset by peer") rfl).1 (by decide) (by decide)).2.2⟩

/-- C2, refuted as stated: the client `127.0.0.2` sends 1000 bytes to the backend
and the backend sends none. After the session `outTraffic` has no entry for
`127.0.0.2` (its value did not grow by 1000); the 1000 bytes are in `inTraffic`. -/
theorem upload_not_in_outTraffic :
    envUpload.dial clientConn = .ok backendConn ∧
    envUpload.copy backendConn clientConn = ⟨1000, none⟩ ∧
    (relaySession envUpload clientConn World.init).outTraffic.Counters clientConn.remoteIP
      = none ∧
    (relaySession envUpload clientConn World.init).outTraffic.Counters.read clientConn.remoteIP
      ≠ World.init.outTraffic.Counters.read clientConn.remoteIP + 1000 ∧
    (relaySession envUpload clientConn World.init).inTraffic.Counters clientConn.remoteIP
      = some 1000 :=
  ⟨rfl, rfl, by decide, by decide, by decide⟩

/-- C2, amended: in a relay session with a successful dial in which `N > 0` bytes
are copied from the client connection to the backend connection, that copy is
the goroutine `copyAndCount(target, conn, &inTraffic)`; over the session the
`inTraffic` entry of the client's remote IP becomes (old value, or 0) + `N`
modulo `2^64`, no other `inTraffic` entry changes, and that copy leaves
`outTraffic` as `handleConn` left it. In whatever state the goroutine comes to
run, it makes that one increment of `inTraffic` and leaves `outTraffic` alone. -/
theorem upload_counts_inTraffic (env : Env) (conn target : Conn) (w : World)
    (N : Int) (err : Option String)
    (hdial : env.dial conn = .ok target)
    (hcopy : env.copy target conn = ⟨N, err⟩) (hpos : 0 < N) (hfit : N < 2 ^ 63) :
    spawned ((handleConn env conn w).since w) = [.copyAndCount target conn .inTraffic] ∧
    (relaySession env conn w).inTraffic.Counters conn.remoteIP
      = some ((w.inTraffic.Counters.read conn.remoteIP + N.toNat) % 2 ^ 64) ∧
    (∀ ip', ip' ≠ conn.remoteIP →
      (relaySession env conn w).inTraffic.Counters ip' = w.inTraffic.Counters ip') ∧
    (relaySession env conn w).outTraffic = (handleConn env conn w).outTraffic ∧
    (∀ w' : World,
      (copyAndCount env target conn .inTraffic w').inTraffic.Counters
          = mapAddAssign w'.inTraffic.Counters conn.remoteIP N.toNat ∧
      (copyAndCount env target conn .inTraffic w').outTraffic = w'.outTraffic) := by
  have hany : ∀ w' : World, (copyAndCount env target conn .inTraffic w').inTraffic.Counters
      = mapAddAssign w'.inTraffic.Counters conn.remoteIP N.toNat := by
    intro w'
    have h := copyAndCount_same env target conn .inTraffic w'
    rw [hcopy, if_pos hpos, uint64_of_int64_pos N hpos hfit] at h
    exact h
  have hin : (relaySession env conn w).inTraffic.Counters
      = mapAddAssign w.inTraffic.Counters conn.remoteIP N.toNat := by
    rw [relaySession_dial_ok env conn target w hdial, hany, handleConn_inTraffic]
  refine ⟨?_, ?_, ?_, ?_, fun w' => ⟨hany w', ?_⟩⟩
  · rw [since_append _ _ _ (handleConn_trace_ok env conn target w hdial), spawned_append,
      spawned_append, spawned_copyEvents]
    rfl
  · rw [hin, mapAddAssign_same]
  · intro ip' h
    rw [hin, mapAddAssign_other _ _ _ _ h]
  · rw [relaySession_dial_ok env conn target w hdial]
    exact copyAndCount_other env target conn .inTraffic .outTraffic _ (by decide)
  · exact copyAndCount_other env target conn .inTraffic .outTraffic w' (by decide)

/-- C2 amended, at the upload of 1000 bytes by the client `127.0.0.2`. -/
theorem upload_counts_inTraffic_witness :
    envUpload.dial clientConn = .ok backendConn ∧
    envUpload.copy backendConn clientConn = ⟨1000, none⟩ ∧
    (relaySession envUpload clientConn World.init).inTraffic.Counters clientConn.remoteIP
      = some ((World.init.inTraffic.Counters.read clientConn.remoteIP + (1000 : Int).toNat)
          % 2 ^ 64) :=
  ⟨rfl, rfl, (upload_counts_inTraffic envUpload clientConn backendConn World.init 1000 none
    rfl rfl (by decide) (by decide)).2.1⟩

/-- C3, refuted as stated: the backend sends 500 bytes to the client `127.0.0.2`
and the client sends none. After the session `inTraffic` has no entry for
`127.0.0.2`; the 500 bytes are in `outTraffic` under `127.0.0.1`, the remote
address of the backend connection, and `outTraffic` has no entry for the client. -/
theorem download_not_in_inTraffic :
    envDownload.dial clientConn = .ok backendConn ∧
    envDownload.copy clientConn backendConn = ⟨500, none⟩ ∧
    backendConn.remoteIP ≠ clientConn.remoteIP ∧
    (relaySession envDownload clientConn World.init).inTraffic.Counters clientConn.remoteIP
      = none ∧
    (relaySession envDownload clientConn World.init).inTraffic.Counters.read clientConn.remoteIP
      ≠ World.init.inTraffic.Counters.read clientConn.remoteIP + 500 ∧
    (relaySession envDownload clientConn World.init).outTraffic.Counters backendConn.remoteIP
      = some 500 ∧
    (relaySession envDownload clientConn World.init).outTraffic.Counters clientConn.remoteIP
      = none :=
  ⟨rfl, rfl, by decide, by decide, by decide, by decide, by decide⟩

/-- C3, amended: in a relay session with a successful dial in which `M > 0` bytes
are copied from the backend connection to the client connection, that copy is
the synchronous `copyAndCount(conn, target, &outTraffic)`; the `outTraffic`
entry of the remote IP of the copy's source, the backend connection, becomes
(old value, or 0) + `M` modulo `2^64`, no other `outTraffic` entry changes, the
spawned copy does not change `outTraffic` afterwards, and `handleConn` leaves
`inTraffic` as it was. In whatever state that copy runs, it makes that one
increment of `outTraffic` and leaves `inTraffic` alone. -/
theorem download_counts_outTraffic (env : Env) (conn target : Conn) (w : World)
    (M : Int) (err : Option String)
    (hdial : env.dial conn = .ok target)
    (hcopy : env.copy conn target = ⟨M, err⟩) (hpos : 0 < M) (hfit : M < 2 ^ 63) :
    (handleConn env conn w).outTraffic.Counters target.remoteIP
      = some ((w.outTraffic.Counters.read target.remoteIP + M.toNat) % 2 ^ 64) ∧
    (∀ ip', ip' ≠ target.remoteIP →
      (handleConn env conn w).outTraffic.Counters ip' = w.outTraffic.Counters ip') ∧
    (relaySession env conn w).outTraffic = (handleConn env conn w).outTraffic ∧
    (handleConn env conn w).inTraffic = w.inTraffic ∧
    (∀ w' : World,
      (copyAndCount env conn target .outTraffic w').outTraffic.Counters
          = mapAddAssign w'.outTraffic.Counters target.remoteIP M.toNat ∧
      (copyAndCount env conn target .outTraffic w').inTraffic = w'.inTraffic) := by
  have hany : ∀ w' : World, (copyAndCount env conn target .outTraffic w').outTraffic.Counters
      = mapAddAssign w'.outTraffic.Counters target.remoteIP M.toNat := by
    intro w'
    have h := copyAndCount_same env conn target .outTraffic w'
    rw [hcopy, if_pos hpos, uint64_of_int64_pos M hpos hfit] at h
    exact h
  have hout : (handleConn env conn w).outTraffic.Counters
      = mapAddAssign w.outTraffic.Counters target.remoteIP M.toNat := by
    rw [handleConn_dial_ok env conn target w hdial]
    exact hany _
  refine ⟨?_, ?_, ?_, handleConn_inTraffic env conn w, fun w' => ⟨hany w',
    copyAndCount_other env conn target .outTraffic .inTraffic w' (by decide)⟩⟩
  · rw [hout, mapAddAssign_same]
  · intro ip' h
    rw [hout, mapAddAssign_other _ _ _ _ h]
  · rw [relaySession_dial_ok env conn target w hdial]
    exact copyAndCount_other env target conn .inTraffic .outTraffic _ (by decide)

/-- C3 amended, at the download of 500 bytes by the client `127.0.0.2`. -/
theorem download_counts_outTraffic_witness :
    envDownload.dial clientConn = .ok backendConn ∧
    envDownload.copy clientConn backendConn = ⟨500, none⟩ ∧
    (handleConn envDownload clientConn World.init).outTraffic.Counters backendConn.remoteIP
      = some ((World.init.outTraffic.Counters.read backendConn.remoteIP + (500 : Int).toNat)
          % 2 ^ 64) :=
  ⟨rfl, rfl, (download_counts_outTraffic envDownload clientConn backendConn World.init 500 none
    rfl rfl (by decide) (by decide)).1⟩

/-- C5, refuted as stated: after two uploads of `2^63 - 1` bytes from `127.0.0.2`
the ledger, reachable from the empty one, holds `2^64 - 2` for that IP; one
further update of 2 bytes wraps the `uint64` sum and leaves the entry at 0. -/
theorem counter_wraps_to_zero :
    Reachable (runUpdates .inTraffic hugeUploads World.init).inTraffic.Counters ∧
    (runUpdates .inTraffic hugeUploads World.init).inTraffic.Counters "127.0.0.2"
      = some (2 ^ 64 - 2) ∧
    (updateTrafficStats clientConn 2 .inTraffic
        (runUpdates .inTraffic hugeUploads World.init)).inTraffic.Counters "127.0.0.2"
      = some 0 ∧
    ¬ (2 ^ 64 - 2 ≤ 0) :=
  ⟨⟨.inTraffic, hugeUploads, by decide, rfl⟩, by decide, by decide, by decide⟩

/-- C5, amended: for every ledger state, so for every state reachable from the
empty ledger, and every further update of `b` bytes, each IP entry present
before the update with value `v` is still present after it (no entry is
removed): the updated entry holds `(v + b) mod 2^64` and every other entry, in
either ledger, holds `v`. Hence the value after is greater than or equal to the
value before provided the update does not wrap, that is provided `v + b` of the
updated entry is below `2^64`; when it wraps, the entry holds `v + b - 2^64`,
which is below `v`. -/
theorem ledger_monotone_unless_wrap (w : World) (src : Conn) (b : Nat)
    (counter p : CounterPtr) (k : String) (v : Nat)
    (hk : (w.counter p).Counters k = some v) :
    ((updateTrafficStats src b counter w).counter p).Counters k
      = some (if p = counter ∧ k = src.remoteIP then (v + b) % 2 ^ 64 else v) ∧
    ((w.counter counter).Counters.read src.remoteIP + b < 2 ^ 64 →
      v ≤ (if p = counter ∧ k = src.remoteIP then (v + b) % 2 ^ 64 else v)) ∧
    (p = counter → k = src.remoteIP → 2 ^ 64 ≤ v + b → v < 2 ^ 64 → b < 2 ^ 64 →
      ((updateTrafficStats src b counter w).counter p).Counters k = some (v + b - 2 ^ 64) ∧
      v + b - 2 ^ 64 < v) := by
  by_cases hp : p = counter
  · subst hp
    by_cases hkey : k = src.remoteIP
    · subst hkey
      have hv : (w.counter p).Counters.read src.remoteIP = v := by
        simp [Counters.read, hk]
      have hafter : ((updateTrafficStats src b p w).counter p).Counters src.remoteIP
          = some ((v + b) % 2 ^ 64) := by
        rw [updateTrafficStats_same, mapAddAssign_same, hv]
      refine ⟨by rw [hafter]; simp, ?_, ?_⟩
      · intro hfit
        rw [hv] at hfit
        simp only [and_self, if_true, Nat.mod_eq_of_lt hfit]
        exact Nat.le_add_right v b
      · intro _ _ hwrap hv64 hb64
        have hmod : (v + b) % 2 ^ 64 = v + b - 2 ^ 64 := by
          rw [Nat.mod_eq_sub_mod hwrap, Nat.mod_eq_of_lt (by omega)]
        exact ⟨by rw [hafter, hmod], by omega⟩
    · refine ⟨?_, ?_, ?_⟩
      · rw [updateTrafficStats_same, mapAddAssign_other _ _ _ _ hkey, hk]
        simp [hkey]
      · intro _
        simp [hkey]
      · intro _ h
        exact absurd h hkey
  · refine ⟨?_, ?_, ?_⟩
    · rw [updateTrafficStats_other _ _ _ _ _ hp, hk]
      simp [hp]
    · intro _
      simp [hp]
    · intro h
      exact absurd h hp

/-- C5 amended, at the `inTraffic` ledger holding 10 bytes for `127.0.0.2` and a
further update of 5 bytes from that client: the entry becomes 15, and 10 ≤ 15;
and at the ledger holding `2^64 - 2` for that client and a further update of 2
bytes, which wraps: the entry becomes 0. -/
theorem ledger_monotone_unless_wrap_witness :
    (((updateTrafficStats clientConn 10 .inTraffic World.init).counter .inTraffic).Counters
        "127.0.0.2" = some 10) ∧
    ((updateTrafficStats clientConn 5 .inTraffic
        (updateTrafficStats clientConn 10 .inTraffic World.init)).counter .inTraffic).Counters
          "127.0.0.2" = some 15 ∧
    (((updateTrafficStats clientConn 10 .inTraffic World.init).counter .inTraffic).Counters.read
          clientConn.remoteIP + 5 < 2 ^ 64) ∧
    (10 : Nat) ≤ 15 ∧
    (((runUpdates .inTraffic hugeUploads World.init).counter .inTraffic).Counters "127.0.0.2"
        = some (2 ^ 64 - 2)) ∧
    (((updateTrafficStats clientConn 2 .inTraffic
          (runUpdates .inTraffic hugeUploads World.init)).counter .inTraffic).Counters
          "127.0.0.2" = some (2 ^ 64 - 2 + 2 - 2 ^ 64) ∧
      2 ^ 64 - 2 + 2 - 2 ^ 64 < 2 ^ 64 - 2) :=
  ⟨by decide,
    (ledger_monotone_unless_wrap (updateTrafficStats clientConn 10 .inTraffic World.init)
      clientConn 5 .inTraffic .inTraffic "127.0.0.2" 10 (by decide)).1.trans (by decide),
    by decide,
    le_of_le_of_eq
      ((ledger_monotone_unless_wrap (updateTrafficStats clientConn 10 .inTraffic World.init)
        clientConn 5 .inTraffic .inTraffic "127.0.0.2" 10 (by decide)).2.1 (by decide))
      (by decide),
    by decide,
    (ledger_monotone_unless_wrap (runUpdates .inTraffic hugeUploads World.init)
      clientConn 2 .inTraffic .inTraffic "127.0.0.2" (2 ^ 64 - 2) (by decide)).2.2 rfl rfl
      (by decide) (by decide) (by decide)⟩

/-- C6, refuted as stated: four uploads of `2^62` bytes from the client
`127.0.0.2`, applied one after another to the empty `inTraffic` ledger, sum to
`2^64`, but the entry ends at 0, not at the initial value plus the sum. -/
theorem sum_wraps_to_zero :
    World.init.inTraffic.Counters.read "127.0.0.2" + bytesFor "127.0.0.2" fourUploads
      = 2 ^ 64 ∧
    (runUpdates .inTraffic fourUploads World.init).inTraffic.Counters.read "127.0.0.2" = 0 ∧
    (runUpdates .inTraffic fourUploads World.init).inTraffic.Counters.read "127.0.0.2"
      ≠ World.init.inTraffic.Counters.read "127.0.0.2" + bytesFor "127.0.0.2" fourUploads :=
  ⟨by decide, by decide, by decide⟩

/-- C6, amended: for every finite collection of increments applied to one ledger,
each applied atomically as the lock of the ledger serializes them, and for every
order (permutation) in which they are applied, the final state is the same; the
final value of the entry of an IP `a` is its initial value plus the sum of all
`b_i` with `ip_i = a`, taken modulo `2^64`, so it is exactly that sum whenever
the sum stays below `2^64`; the other ledger is not touched. -/
theorem no_lost_updates (counter : CounterPtr) (w : World) (ups ups' : List (Conn × Nat))
    (hperm : ups.Perm ups')
    (hwf : ∀ a, (w.counter counter).Counters.read a < 2 ^ 64) :
    runUpdates counter ups' w = runUpdates counter ups w ∧
    (∀ a, ((runUpdates counter ups' w).counter counter).Counters.read a
      = ((w.counter counter).Counters.read a + bytesFor a ups) % 2 ^ 64) ∧
    (∀ a, (w.counter counter).Counters.read a + bytesFor a ups < 2 ^ 64 →
      ((runUpdates counter ups' w).counter counter).Counters.read a
        = (w.counter counter).Counters.read a + bytesFor a ups) ∧
    (∀ other, other ≠ counter → (runUpdates counter ups' w).counter other = w.counter other) := by
  have heq : runUpdates counter ups' w = runUpdates counter ups w := by
    unfold runUpdates
    exact (hperm.foldl_eq' (fun x _ y _ z => updateTrafficStats_comm counter x.1 y.1 x.2 y.2 z)
      w).symm
  have hval : ∀ a, ((runUpdates counter ups' w).counter counter).Counters.read a
      = ((w.counter counter).Counters.read a + bytesFor a ups) % 2 ^ 64 := by
    intro a
    rw [heq]
    exact runUpdates_read counter a ups w (hwf a)
  refine ⟨heq, hval, ?_, ?_⟩
  · intro a hfit
    rw [hval a, Nat.mod_eq_of_lt hfit]
  · intro other h
    exact runUpdates_other counter other h ups' w

/-- C6 amended, at three increments on the empty `inTraffic` ledger, two of them
(1000 and 500 bytes) for the same client `127.0.0.2` and one (7 bytes) for
`10.0.0.2`, applied in two orders: both orders end in the same state, with 1500
for `127.0.0.2` and 7 for `10.0.0.2`. -/
theorem no_lost_updates_witness :
    [(clientConn, 1000), (strangerConn, 7), (clientConn, 500)].Perm
      [(clientConn, 500), (clientConn, 1000), (strangerConn, 7)] ∧
    (∀ a, (World.init.counter .inTraffic).Counters.read a < 2 ^ 64) ∧
    runUpdates .inTraffic [(clientConn, 500), (clientConn, 1000), (strangerConn, 7)] World.init
      = runUpdates .inTraffic [(clientConn, 1000), (strangerConn, 7), (clientConn, 500)]
          World.init ∧
    ((runUpdates .inTraffic [(clientConn, 500), (clientConn, 1000), (strangerConn, 7)]
        World.init).counter .inTraffic).Counters.read "127.0.0.2" = 1500 ∧
    ((runUpdates .inTraffic [(clientConn, 500), (clientConn, 1000), (strangerConn, 7)]
        World.init).counter .inTraffic).Counters.read "10.0.0.2" = 7 :=
  ⟨by decide, fun _ => (by decide : (0 : Nat) < 2 ^ 64),
    (no_lost_updates .inTraffic World.init
      [(clientConn, 1000), (strangerConn, 7), (clientConn, 500)]
      [(clientConn, 500), (clientConn, 1000), (strangerConn, 7)] (by decide)
      (fun _ => (by decide : (0 : Nat) < 2 ^ 64))).1,
    ((no_lost_updates .inTraffic World.init
      [(clientConn, 1000), (strangerConn, 7), (clientConn, 500)]
      [(clientConn, 500), (clientConn, 1000), (strangerConn, 7)] (by decide)
      (fun _ => (by decide : (0 : Nat) < 2 ^ 64))).2.1 "127.0.0.2").trans (by decide),
    ((no_lost_updates .inTraffic World.init
      [(clientConn, 1000), (strangerConn, 7), (clientConn, 500)]
      [(clientConn, 500), (clientConn, 1000), (strangerConn, 7)] (by decide)
      (fun _ => (by decide : (0 : Nat) < 2 ^ 64))).2.1 "10.0.0.2").trans (by decide)⟩

end Door
